import Mathlib

/-!
Verification of the RBAC core of a school-management backend.

The Go source is embedded shallowly: UUIDs and timestamps become `Nat`,
nullable columns become `Option`, the relational store becomes a record of
lists (one per table), GORM queries become list filters/joins, and fallible
service calls return `Except String`.  Service functions take the values the
Go code obtains from `uuid.New()` and `time.Now()` as explicit `fresh`/`now`
arguments.
-/

set_option maxRecDepth 10000

namespace RBAC

/-- Row of the `roles` table (Go struct `rbac.RoleEntity`). -/
structure RoleEntity where
  id : Nat
  name : String
  slug : String
  description : String
  isActive : Bool
  createdAt : Nat
  createdBy : Option Nat
  updatedAt : Nat
  updatedBy : Option Nat
  deletedAt : Option Nat
  deletedBy : Option Nat
deriving DecidableEq, Repr

/-- Row of the `permissions` table (Go struct `rbac.PermissionEntity`). -/
structure PermissionEntity where
  id : Nat
  name : String
  slug : String
  resource : String
  action : String
  description : String
  isActive : Bool
  createdAt : Nat
  createdBy : Option Nat
  updatedAt : Nat
  updatedBy : Option Nat
  deletedAt : Option Nat
  deletedBy : Option Nat
deriving DecidableEq, Repr

/-- Row of the `menus` table (Go struct `rbac.MenuEntity`); `parentID` is the
nullable self-reference. -/
structure MenuEntity where
  id : Nat
  name : String
  slug : String
  url : String
  icon : String
  parentID : Option Nat
  sortOrder : Int
  isActive : Bool
  createdAt : Nat
  createdBy : Option Nat
  updatedAt : Nat
  updatedBy : Option Nat
  deletedAt : Option Nat
  deletedBy : Option Nat
deriving DecidableEq, Repr

/-- Row of the `role_permissions` junction table. -/
structure RolePermissionEntity where
  id : Nat
  roleID : Nat
  permissionID : Nat
  createdBy : Option Nat
deriving DecidableEq, Repr

/-- Row of the `user_roles` junction table. -/
structure UserRoleEntity where
  id : Nat
  userID : Nat
  roleID : Nat
  assignedBy : Option Nat
deriving DecidableEq, Repr

/-- Row of the `role_menus` junction table, carrying the per-edge CRUD
grant flags. -/
structure RoleMenuEntity where
  id : Nat
  roleID : Nat
  menuID : Nat
  canView : Bool
  canCreate : Bool
  canEdit : Bool
  canDelete : Bool
  createdBy : Option Nat
  updatedBy : Option Nat
deriving DecidableEq, Repr

/-- The relational store: one list per table touched by the RBAC core. -/
structure RBACState where
  roles : List RoleEntity
  permissions : List PermissionEntity
  menus : List MenuEntity
  rolePermissions : List RolePermissionEntity
  userRoles : List UserRoleEntity
  roleMenus : List RoleMenuEntity
deriving DecidableEq, Repr

/-! ## Persistence adapter (rbac_repository.go) -/

/-- `GetRoleByID`: `WHERE id = ? AND deleted_at IS NULL`, `nil` on not found. -/
def getRoleByID (s : RBACState) (id : Nat) : Option RoleEntity :=
  s.roles.find? (fun r => decide (r.id = id ∧ r.deletedAt = none))

/-- `GetRoleBySlug`: `WHERE slug = ? AND deleted_at IS NULL`. -/
def getRoleBySlug (s : RBACState) (slug : String) : Option RoleEntity :=
  s.roles.find? (fun r => decide (r.slug = slug ∧ r.deletedAt = none))

/-- `GetPermissionBySlug`: `WHERE slug = ? AND deleted_at IS NULL`. -/
def getPermissionBySlug (s : RBACState) (slug : String) : Option PermissionEntity :=
  s.permissions.find? (fun p => decide (p.slug = slug ∧ p.deletedAt = none))

/-- `GetMenuByID`: `WHERE id = ? AND deleted_at IS NULL`. -/
def getMenuByID (s : RBACState) (id : Nat) : Option MenuEntity :=
  s.menus.find? (fun m => decide (m.id = id ∧ m.deletedAt = none))

/-- `GetMenuBySlug`: `WHERE slug = ? AND deleted_at IS NULL`. -/
def getMenuBySlug (s : RBACState) (slug : String) : Option MenuEntity :=
  s.menus.find? (fun m => decide (m.slug = slug ∧ m.deletedAt = none))

/-- `GetPermissionsByIDs`: `WHERE id IN ? AND deleted_at IS NULL`; each stored
row is returned at most once, regardless of duplicates in `ids`. -/
def getPermissionsByIDs (s : RBACState) (ids : List Nat) : List PermissionEntity :=
  s.permissions.filter (fun p => decide (p.id ∈ ids ∧ p.deletedAt = none))

/-- `GetMenusByIDs`: `WHERE id IN ? AND deleted_at IS NULL` (order by
sort_order is irrelevant to the properties proved here). -/
def getMenusByIDs (s : RBACState) (ids : List Nat) : List MenuEntity :=
  s.menus.filter (fun m => decide (m.id ∈ ids ∧ m.deletedAt = none))

/-- GORM `Create` does not save a zero-valued field that carries a
`default` tag; the column default applies instead.  For a `bool` column
tagged `default:true` (schema `TINYINT(1) DEFAULT 1`), a `false` value is
therefore omitted from the INSERT and the row is persisted with the
column default `true`; a `true` value is saved as given. -/
def gormDefaultTrue (b : Bool) : Bool :=
  if b = false then true else b

/-- For every argument the persisted value of a `default:true` bool
column is `true`. -/
lemma gormDefaultTrue_eq_true (b : Bool) : gormDefaultTrue b = true := by
  cases b <;> rfl

/-- `CreateRole` (`db.Create`): insert; `RoleEntity.IsActive` carries the
`default:true` tag, so a false value is overridden by the column
default on insert. -/
def repoCreateRole (s : RBACState) (role : RoleEntity) : RBACState :=
  { s with roles :=
      s.roles ++ [{ role with isActive := gormDefaultTrue role.isActive }] }

/-- `CreatePermission` (`db.Create`): insert, with the `default:true`
override on `PermissionEntity.IsActive`. -/
def repoCreatePermission (s : RBACState) (p : PermissionEntity) : RBACState :=
  { s with permissions :=
      s.permissions ++ [{ p with isActive := gormDefaultTrue p.isActive }] }

/-- `CreateMenu` (`db.Create`): insert, with the `default:true` override
on `MenuEntity.IsActive` (the `default:0` tag on `SortOrder` is the
identity on the zero value and needs no modelling). -/
def repoCreateMenu (s : RBACState) (m : MenuEntity) : RBACState :=
  { s with menus :=
      s.menus ++ [{ m with isActive := gormDefaultTrue m.isActive }] }

/-- `UpdateRole` (GORM `Save`): update the row whose primary key matches. -/
def repoUpdateRole (s : RBACState) (role : RoleEntity) : RBACState :=
  { s with roles := s.roles.map (fun r => if r.id = role.id then role else r) }

/-- `UpdatePermission` (GORM `Save`). -/
def repoUpdatePermission (s : RBACState) (p : PermissionEntity) : RBACState :=
  { s with permissions := s.permissions.map (fun q => if q.id = p.id then p else q) }

/-- `UpdateMenu` (GORM `Save`). -/
def repoUpdateMenu (s : RBACState) (m : MenuEntity) : RBACState :=
  { s with menus := s.menus.map (fun n => if n.id = m.id then m else n) }

/-- `AssignPermissionsToRole` (repository): delete all `role_permissions`
rows of the role, then insert one row per requested permission id.  The Go
code draws a fresh UUID per row; here row `i` gets id `fresh + i`. -/
def repoAssignPermissionsToRole (s : RBACState) (roleID : Nat)
    (permissionIDs : List Nat) (assignedBy fresh : Nat) : RBACState :=
  let kept := s.rolePermissions.filter (fun rp => decide (¬ rp.roleID = roleID))
  let rows := permissionIDs.enum.map (fun ip =>
    { id := fresh + ip.1, roleID := roleID, permissionID := ip.2,
      createdBy := some assignedBy : RolePermissionEntity })
  { s with rolePermissions := kept ++ rows }

/-- `AssignPermissionsToRole` with the two storage calls allowed to fail
(`deleteOk` / `insertOk` report whether each underlying statement succeeds).
Returns the resulting store together with the error, mirroring the Go early
returns: a failed delete changes nothing; a failed insert leaves the
role's rows deleted. -/
def repoAssignPermissionsToRoleFallible (deleteOk insertOk : Bool)
    (s : RBACState) (roleID : Nat) (permissionIDs : List Nat)
    (assignedBy fresh : Nat) : RBACState × Option String :=
  if deleteOk = false then (s, some "failed to delete existing role permissions")
  else
    let s1 := { s with rolePermissions :=
      s.rolePermissions.filter (fun rp => decide (¬ rp.roleID = roleID)) }
    let rows := permissionIDs.enum.map (fun ip =>
      { id := fresh + ip.1, roleID := roleID, permissionID := ip.2,
        createdBy := some assignedBy : RolePermissionEntity })
    if rows.length > 0 then
      if insertOk = false then (s1, some "failed to insert role permissions")
      else ({ s1 with rolePermissions := s1.rolePermissions ++ rows }, none)
    else (s1, none)

/-- `AssignRolesToUser` (repository): delete all `user_roles` rows of the
user, then insert one row per requested role id. -/
def repoAssignRolesToUser (s : RBACState) (userID : Nat)
    (roleIDs : List Nat) (assignedBy fresh : Nat) : RBACState :=
  let kept := s.userRoles.filter (fun ur => decide (¬ ur.userID = userID))
  let rows := roleIDs.enum.map (fun ir =>
    { id := fresh + ir.1, userID := userID, roleID := ir.2,
      assignedBy := some assignedBy : UserRoleEntity })
  { s with userRoles := kept ++ rows }

/-- `RemoveRolesFromUser`: targeted delete
(`WHERE user_id = ? AND role_id IN ?`). -/
def repoRemoveRolesFromUser (s : RBACState) (userID : Nat)
    (roleIDs : List Nat) : RBACState :=
  { s with userRoles :=
      s.userRoles.filter (fun ur => decide (¬ (ur.userID = userID ∧ ur.roleID ∈ roleIDs))) }

/-- `AssignMenusToRole` (repository): delete all `role_menus` rows of the
role, then insert the given entries after stamping id, role id and audit
actors, as the Go loop does.  `RoleMenuEntity.CanView` carries the
`default:true` tag, so a `CanView = false` entry is persisted with
`can_view = true` by the insert (`CanCreate`/`CanEdit`/`CanDelete` are
tagged `default:false`, the identity on the zero value). -/
def repoAssignMenusToRole (s : RBACState) (roleID : Nat)
    (menuPermissions : List RoleMenuEntity) (assignedBy fresh : Nat) : RBACState :=
  let kept := s.roleMenus.filter (fun rm => decide (¬ rm.roleID = roleID))
  let rows := menuPermissions.enum.map (fun ie =>
    let e := ie.2
    { e with
      id := fresh + ie.1
      roleID := roleID
      canView := gormDefaultTrue e.canView
      createdBy := some assignedBy
      updatedBy := some assignedBy })
  { s with roleMenus := kept ++ rows }

/-- The join of `CheckUserHasPermission`:
`permissions ⋈ role_permissions ⋈ user_roles` with the WHERE clause of the
Go query — note it constrains only the permission's `deleted_at`/`is_active`,
never the role row. -/
def userPermissionJoinRows (s : RBACState) (userID : Nat)
    (resource action : String) : List (PermissionEntity × RolePermissionEntity × UserRoleEntity) :=
  s.permissions.flatMap (fun p =>
    s.rolePermissions.flatMap (fun rp =>
      (s.userRoles.filter (fun ur => decide (p.id = rp.permissionID ∧
          rp.roleID = ur.roleID ∧ ur.userID = userID ∧
          p.resource = resource ∧ p.action = action ∧
          p.deletedAt = none ∧ p.isActive = true))).map (fun ur => (p, rp, ur))))

/-- `CheckUserHasPermission`: `COUNT(*) > 0` over the join above. -/
def checkUserHasPermission (s : RBACState) (userID : Nat)
    (resource action : String) : Bool :=
  decide (0 < (userPermissionJoinRows s userID resource action).length)

/-- The join of `CheckUserHasRole`: `user_roles ⋈ roles` filtered on slug,
`deleted_at IS NULL` and `is_active = true` of the role row. -/
def userRoleJoinRows (s : RBACState) (userID : Nat) (roleSlug : String) :
    List (UserRoleEntity × RoleEntity) :=
  s.userRoles.flatMap (fun ur =>
    (s.roles.filter (fun ro => decide (ur.roleID = ro.id ∧ ur.userID = userID ∧
        ro.slug = roleSlug ∧ ro.deletedAt = none ∧ ro.isActive = true))).map
      (fun ro => (ur, ro)))

/-- `CheckUserHasRole`: `COUNT(*) > 0` over the join above. -/
def checkUserHasRole (s : RBACState) (userID : Nat) (roleSlug : String) : Bool :=
  decide (0 < (userRoleJoinRows s userID roleSlug).length)

/-- `GetUserAccessibleMenus`: `role_menus ⋈ user_roles ⋈ menus` returning the
`role_menus` rows, filtered on the user id, the menu being live and active,
and `can_view = true` (ORDER BY sort_order is irrelevant to membership). -/
def getUserAccessibleMenus (s : RBACState) (userID : Nat) : List RoleMenuEntity :=
  s.roleMenus.flatMap (fun rm =>
    s.userRoles.flatMap (fun ur =>
      (s.menus.filter (fun m => decide (rm.roleID = ur.roleID ∧ rm.menuID = m.id ∧
          ur.userID = userID ∧ m.deletedAt = none ∧ m.isActive = true ∧
          rm.canView = true))).map (fun _ => rm)))

/-! ## Request / response DTOs (dto.go) -/

/-- `CreateRoleRequest`: optional `IsActive` is a `*bool`. -/
structure CreateRoleRequest where
  name : String
  slug : String
  description : String
  isActive : Option Bool
deriving DecidableEq, Repr

/-- `UpdateRoleRequest`: every field is an optional patch. -/
structure UpdateRoleRequest where
  name : Option String
  slug : Option String
  description : Option String
  isActive : Option Bool
deriving DecidableEq, Repr

/-- `CreatePermissionRequest`. -/
structure CreatePermissionRequest where
  name : String
  slug : String
  resource : String
  action : String
  description : String
  isActive : Option Bool
deriving DecidableEq, Repr

/-- `CreateMenuRequest`. -/
structure CreateMenuRequest where
  name : String
  slug : String
  url : String
  icon : String
  parentID : Option Nat
  sortOrder : Option Int
  isActive : Option Bool
deriving DecidableEq, Repr

/-- `UpdateMenuRequest`: every field is an optional patch. -/
structure UpdateMenuRequest where
  name : Option String
  slug : Option String
  url : Option String
  icon : Option String
  parentID : Option Nat
  sortOrder : Option Int
  isActive : Option Bool
deriving DecidableEq, Repr

/-- `AssignRolePermissionsRequest`. -/
structure AssignRolePermissionsRequest where
  permissionIDs : List Nat
deriving DecidableEq, Repr

/-- `MenuPermissionRequest`: one entry of `AssignRoleMenusRequest`. -/
structure MenuPermissionRequest where
  menuID : Nat
  canView : Bool
  canCreate : Bool
  canEdit : Bool
  canDelete : Bool
deriving DecidableEq, Repr

/-- `AssignRoleMenusRequest`. -/
structure AssignRoleMenusRequest where
  menuPermissions : List MenuPermissionRequest
deriving DecidableEq, Repr

/-- Id-plus-message payload returned by the create services. -/
structure CreatedResponse where
  id : Nat
  message : String
deriving DecidableEq, Repr

/-! ## Authorization engine (rbac service, part_014) -/

/-- `ValidateRoleSlug`: conflict unless the live slug holder is the excluded
record itself (Go: `existingRole != nil && (excludeID == nil ||
existingRole.ID != *excludeID)`). -/
def validateRoleSlug (s : RBACState) (slug : String) (excludeID : Option Nat) :
    Except String Unit :=
  match getRoleBySlug s slug with
  | none => .ok ()
  | some existingRole =>
    if excludeID.isNone || excludeID ≠ some existingRole.id then
      .error "role slug already exists"
    else .ok ()

/-- `ValidatePermissionSlug`. -/
def validatePermissionSlug (s : RBACState) (slug : String) (excludeID : Option Nat) :
    Except String Unit :=
  match getPermissionBySlug s slug with
  | none => .ok ()
  | some existingPermission =>
    if excludeID.isNone || excludeID ≠ some existingPermission.id then
      .error "permission slug already exists"
    else .ok ()

/-- `ValidateMenuSlug`. -/
def validateMenuSlug (s : RBACState) (slug : String) (excludeID : Option Nat) :
    Except String Unit :=
  match getMenuBySlug s slug with
  | none => .ok ()
  | some existingMenu =>
    if excludeID.isNone || excludeID ≠ some existingMenu.id then
      .error "menu slug already exists"
    else .ok ()

/-- Service `CreateRole`: slug check, then insert with
`IsActive: req.IsActive != nil && *req.IsActive`. -/
def svcCreateRole (s : RBACState) (req : CreateRoleRequest)
    (createdBy now fresh : Nat) : Except String (CreatedResponse × RBACState) :=
  match validateRoleSlug s req.slug none with
  | .error e => .error e
  | .ok _ =>
    let role : RoleEntity :=
      { id := fresh
        name := req.name
        slug := req.slug
        description := req.description
        isActive := req.isActive.getD false
        createdAt := now
        createdBy := some createdBy
        updatedAt := now
        updatedBy := none
        deletedAt := none
        deletedBy := none }
    .ok ({ id := fresh, message := "Role created successfully" }, repoCreateRole s role)

/-- Service `CreatePermission`. -/
def svcCreatePermission (s : RBACState) (req : CreatePermissionRequest)
    (createdBy now fresh : Nat) : Except String (CreatedResponse × RBACState) :=
  match validatePermissionSlug s req.slug none with
  | .error e => .error e
  | .ok _ =>
    let permission : PermissionEntity :=
      { id := fresh
        name := req.name
        slug := req.slug
        resource := req.resource
        action := req.action
        description := req.description
        isActive := req.isActive.getD false
        createdAt := now
        createdBy := some createdBy
        updatedAt := now
        updatedBy := none
        deletedAt := none
        deletedBy := none }
    .ok ({ id := fresh, message := "Permission created successfully" },
      repoCreatePermission s permission)

/-- Service `CreateMenu`: slug check, parent-existence check when
`parent_id` is set, then insert. -/
def svcCreateMenu (s : RBACState) (req : CreateMenuRequest)
    (createdBy now fresh : Nat) : Except String (CreatedResponse × RBACState) :=
  match validateMenuSlug s req.slug none with
  | .error e => .error e
  | .ok _ =>
    match (match req.parentID with
      | some pid =>
        match getMenuByID s pid with
        | none => .error "parent menu not found"
        | some _ => .ok ()
      | none => .ok () : Except String Unit) with
    | .error e => .error e
    | .ok _ =>
      let menu : MenuEntity :=
        { id := fresh
          name := req.name
          slug := req.slug
          url := req.url
          icon := req.icon
          parentID := req.parentID
          sortOrder := req.sortOrder.getD 0
          isActive := req.isActive.getD false
          createdAt := now
          createdBy := some createdBy
          updatedAt := now
          updatedBy := none
          deletedAt := none
          deletedBy := none }
      .ok ({ id := fresh, message := "Menu created successfully" }, repoCreateMenu s menu)

/-- Service `UpdateRole`: partial update — only the non-nil request fields
are applied (the Go sequence of `if req.X != nil` patches is written here as
one record expression with `getD`); a new slug is re-validated with the
record's own id excluded before anything is saved. -/
def svcUpdateRole (s : RBACState) (id : Nat) (req : UpdateRoleRequest)
    (updatedBy now : Nat) : Except String RBACState :=
  match getRoleByID s id with
  | none => .error "role not found"
  | some role0 =>
    match (match req.slug with
      | some sl => validateRoleSlug s sl (some id)
      | none => .ok () : Except String Unit) with
    | .error e => .error e
    | .ok _ =>
      let role := { role0 with
        name := req.name.getD role0.name
        slug := req.slug.getD role0.slug
        description := req.description.getD role0.description
        isActive := req.isActive.getD role0.isActive
        updatedBy := some updatedBy
        updatedAt := now }
      .ok (repoUpdateRole s role)

/-- Service `DeleteMenu`: soft delete. -/
def svcDeleteMenu (s : RBACState) (id deletedBy now : Nat) : Except String RBACState :=
  match getMenuByID s id with
  | none => .error "menu not found"
  | some menu =>
    .ok (repoUpdateMenu s { menu with deletedBy := some deletedBy, deletedAt := some now })

/-- Service `UpdateMenu`, preserving the Go order of checks: not-found
first, then slug uniqueness excluding self (only when a slug is supplied),
then the parent checks (self-reference, then parent existence, only when a
parent id is supplied), then the save.  The Go sequence of
`if req.X != nil` field patches is written as one record expression. -/
def svcUpdateMenu (s : RBACState) (id : Nat) (req : UpdateMenuRequest)
    (updatedBy now : Nat) : Except String RBACState :=
  match getMenuByID s id with
  | none => .error "menu not found"
  | some menu0 =>
    match (match req.slug with
      | some sl => validateMenuSlug s sl (some id)
      | none => .ok () : Except String Unit) with
    | .error e => .error e
    | .ok _ =>
      match (match req.parentID with
        | some pid =>
          if pid = id then .error "menu cannot be parent of itself"
          else
            match getMenuByID s pid with
            | none => .error "parent menu not found"
            | some _ => .ok ()
        | none => .ok () : Except String Unit) with
      | .error e => .error e
      | .ok _ =>
        let menu := { menu0 with
          name := req.name.getD menu0.name
          slug := req.slug.getD menu0.slug
          url := req.url.getD menu0.url
          icon := req.icon.getD menu0.icon
          parentID := match req.parentID with
            | some pid => some pid
            | none => menu0.parentID
          sortOrder := req.sortOrder.getD menu0.sortOrder
          isActive := req.isActive.getD menu0.isActive
          updatedBy := some updatedBy
          updatedAt := now }
        .ok (repoUpdateMenu s menu)

/-- Service `AssignPermissionsToRole`: role existence, all-or-nothing
resolution of the requested permission ids (count comparison), then the
repository replace. -/
def svcAssignPermissionsToRole (s : RBACState) (roleID : Nat)
    (req : AssignRolePermissionsRequest) (assignedBy fresh : Nat) :
    Except String RBACState :=
  match getRoleByID s roleID with
  | none => .error "role not found"
  | some _ =>
    let permissions := getPermissionsByIDs s req.permissionIDs
    if permissions.length ≠ req.permissionIDs.length then
      .error "some permissions not found"
    else
      .ok (repoAssignPermissionsToRole s roleID req.permissionIDs assignedBy fresh)

/-- Service `AssignMenusToRole`: role existence, all-or-nothing resolution
of the referenced menu ids, conversion of the request entries to
`role_menus` rows, then the repository replace. -/
def svcAssignMenusToRole (s : RBACState) (roleID : Nat)
    (req : AssignRoleMenusRequest) (assignedBy fresh : Nat) :
    Except String RBACState :=
  match getRoleByID s roleID with
  | none => .error "role not found"
  | some _ =>
    let menuIDs := req.menuPermissions.map (fun mp => mp.menuID)
    let menus := getMenusByIDs s menuIDs
    if menus.length ≠ menuIDs.length then
      .error "some menus not found"
    else
      let roleMenus := req.menuPermissions.map (fun mp =>
        { id := 0
          roleID := 0
          menuID := mp.menuID
          canView := mp.canView
          canCreate := mp.canCreate
          canEdit := mp.canEdit
          canDelete := mp.canDelete
          createdBy := none
          updatedBy := none : RoleMenuEntity })
      .ok (repoAssignMenusToRole s roleID roleMenus assignedBy fresh)

/-- The validation loop of service `AssignRolesToUser`: error on the first
role id that does not resolve. -/
def validateRolesExist (s : RBACState) : List Nat → Except String Unit
  | [] => .ok ()
  | rid :: rest =>
    match getRoleByID s rid with
    | none => .error ("role with ID " ++ toString rid ++ " not found")
    | some _ => validateRolesExist s rest

/-- Service `AssignRolesToUser`: validate every role id exists, then the
repository full replace of the user's role set. -/
def svcAssignRolesToUser (s : RBACState) (userID : Nat) (roleIDs : List Nat)
    (assignedBy fresh : Nat) : Except String RBACState :=
  match validateRolesExist s roleIDs with
  | .error e => .error e
  | .ok _ => .ok (repoAssignRolesToUser s userID roleIDs assignedBy fresh)

/-- Service `RemoveRolesFromUser`: targeted delete of the listed role ids
only (the service adds no validation of its own). -/
def svcRemoveRolesFromUser (s : RBACState) (userID : Nat)
    (roleIDs : List Nat) : RBACState :=
  repoRemoveRolesFromUser s userID roleIDs

/-- Service `CheckUserPermission` delegates to the repository join. -/
def svcCheckUserPermission (s : RBACState) (userID : Nat)
    (resource action : String) : Bool :=
  checkUserHasPermission s userID resource action

/-- Service `CheckUserRole` delegates to the repository join. -/
def svcCheckUserRole (s : RBACState) (userID : Nat) (roleSlug : String) : Bool :=
  checkUserHasRole s userID roleSlug

/-! ## Characterization lemmas for the authorization joins -/

/-- Membership in the `CheckUserHasPermission` join. -/
lemma mem_userPermissionJoinRows {s : RBACState} {u : Nat} {res act : String}
    {x : PermissionEntity × RolePermissionEntity × UserRoleEntity} :
    x ∈ userPermissionJoinRows s u res act ↔
      x.1 ∈ s.permissions ∧ x.2.1 ∈ s.rolePermissions ∧ x.2.2 ∈ s.userRoles ∧
      x.1.id = x.2.1.permissionID ∧ x.2.1.roleID = x.2.2.roleID ∧
      x.2.2.userID = u ∧ x.1.resource = res ∧ x.1.action = act ∧
      x.1.deletedAt = none ∧ x.1.isActive = true := by
  obtain ⟨p, rp, ur⟩ := x
  simp only [userPermissionJoinRows, List.mem_flatMap, List.mem_map,
    List.mem_filter, decide_eq_true_eq, Prod.mk.injEq]
  constructor
  · rintro ⟨p', hp', rp', hrp', ur', ⟨hur', hcond⟩, rfl, rfl, rfl⟩
    exact ⟨hp', hrp', hur', hcond⟩
  · rintro ⟨hp, hrp, hur, h1, h2, h3, h4, h5, h6, h7⟩
    exact ⟨p, hp, rp, hrp, ur, ⟨hur, h1, h2, h3, h4, h5, h6, h7⟩, rfl, rfl, rfl⟩

/-- `CheckUserHasPermission` is true exactly when the user has a
`user_roles` edge whose role id carries an active, non-deleted permission
matching the resource/action pair.  The role row itself is never
consulted. -/
lemma checkUserHasPermission_iff (s : RBACState) (u : Nat) (res act : String) :
    checkUserHasPermission s u res act = true ↔
      ∃ ur ∈ s.userRoles, ur.userID = u ∧
        ∃ rp ∈ s.rolePermissions, rp.roleID = ur.roleID ∧
          ∃ p ∈ s.permissions, p.id = rp.permissionID ∧
            p.resource = res ∧ p.action = act ∧
            p.deletedAt = none ∧ p.isActive = true := by
  rw [checkUserHasPermission, decide_eq_true_iff, List.length_pos_iff_exists_mem]
  constructor
  · rintro ⟨x, hx⟩
    rw [mem_userPermissionJoinRows] at hx
    obtain ⟨hp, hrp, hur, h1, h2, h3, h4, h5, h6, h7⟩ := hx
    exact ⟨x.2.2, hur, h3, x.2.1, hrp, h2, x.1, hp, h1, h4, h5, h6, h7⟩
  · rintro ⟨ur, hur, h3, rp, hrp, h2, p, hp, h1, h4, h5, h6, h7⟩
    exact ⟨(p, rp, ur), mem_userPermissionJoinRows.mpr
      ⟨hp, hrp, hur, h1, h2, h3, h4, h5, h6, h7⟩⟩

/-- Membership in the `CheckUserHasRole` join. -/
lemma mem_userRoleJoinRows {s : RBACState} {u : Nat} {slug : String}
    {x : UserRoleEntity × RoleEntity} :
    x ∈ userRoleJoinRows s u slug ↔
      x.1 ∈ s.userRoles ∧ x.2 ∈ s.roles ∧ x.1.roleID = x.2.id ∧
      x.1.userID = u ∧ x.2.slug = slug ∧ x.2.deletedAt = none ∧
      x.2.isActive = true := by
  obtain ⟨ur, ro⟩ := x
  simp only [userRoleJoinRows, List.mem_flatMap, List.mem_map,
    List.mem_filter, decide_eq_true_eq, Prod.mk.injEq]
  constructor
  · rintro ⟨ur', hur', ro', ⟨hro', hcond⟩, rfl, rfl⟩
    exact ⟨hur', hro', hcond⟩
  · rintro ⟨hur, hro, h1, h2, h3, h4, h5⟩
    exact ⟨ur, hur, ro, ⟨hro, h1, h2, h3, h4, h5⟩, rfl, rfl⟩

/-- `CheckUserHasRole` is true exactly when the user has an edge to an
active, non-deleted role with the given slug. -/
lemma checkUserHasRole_iff (s : RBACState) (u : Nat) (slug : String) :
    checkUserHasRole s u slug = true ↔
      ∃ ur ∈ s.userRoles, ur.userID = u ∧
        ∃ ro ∈ s.roles, ur.roleID = ro.id ∧ ro.slug = slug ∧
          ro.deletedAt = none ∧ ro.isActive = true := by
  rw [checkUserHasRole, decide_eq_true_iff, List.length_pos_iff_exists_mem]
  constructor
  · rintro ⟨x, hx⟩
    rw [mem_userRoleJoinRows] at hx
    obtain ⟨hur, hro, h1, h2, h3, h4, h5⟩ := hx
    exact ⟨x.1, hur, h2, x.2, hro, h1, h3, h4, h5⟩
  · rintro ⟨ur, hur, h2, ro, hro, h1, h3, h4, h5⟩
    exact ⟨(ur, ro), mem_userRoleJoinRows.mpr ⟨hur, hro, h1, h2, h3, h4, h5⟩⟩

/-- Membership in the `GetUserAccessibleMenus` result. -/
lemma mem_getUserAccessibleMenus {s : RBACState} {u : Nat} {rm : RoleMenuEntity} :
    rm ∈ getUserAccessibleMenus s u ↔
      rm ∈ s.roleMenus ∧ rm.canView = true ∧
      (∃ ur ∈ s.userRoles, ur.userID = u ∧ ur.roleID = rm.roleID) ∧
      (∃ m ∈ s.menus, m.id = rm.menuID ∧ m.deletedAt = none ∧
        m.isActive = true) := by
  simp only [getUserAccessibleMenus, List.mem_flatMap, List.mem_map,
    List.mem_filter, decide_eq_true_eq]
  constructor
  · rintro ⟨rm', hrm', ur, hur, m, ⟨hm, hcond⟩, heq⟩
    subst heq
    exact ⟨hrm', hcond.2.2.2.2.2, ⟨ur, hur, hcond.2.2.1, hcond.1.symm⟩,
      ⟨m, hm, hcond.2.1.symm, hcond.2.2.2.1, hcond.2.2.2.2.1⟩⟩
  · rintro ⟨hrm, hview, ⟨ur, hur, hu, hrole⟩, ⟨m, hm, hid, hdel, hact⟩⟩
    exact ⟨rm, hrm, ur, hur, m, ⟨hm, hrole.symm, hid.symm, hu, hdel, hact, hview⟩, rfl⟩

/-! ## Claim C1 -/

/-- Modelled from the claim's words (C1, spec side of the refinement): the
check as the spec describes it, additionally requiring the role row held by
the user to exist, be active and not soft-deleted. -/
def checkUserPermissionSpec (s : RBACState) (u : Nat) (res act : String) : Bool :=
  decide (∃ ur ∈ s.userRoles, ur.userID = u ∧
    ∃ ro ∈ s.roles, ro.id = ur.roleID ∧ ro.deletedAt = none ∧ ro.isActive = true ∧
      ∃ rp ∈ s.rolePermissions, rp.roleID = ro.id ∧
        ∃ p ∈ s.permissions, p.id = rp.permissionID ∧ p.resource = res ∧
          p.action = act ∧ p.deletedAt = none ∧ p.isActive = true)

/-- C1 counterexample store: user 10 holds role 1, which is **inactive**
(`is_active = false`) yet not deleted; role 1 is linked to the active
permission 2 `("users", "create")`. -/
def sC1 : RBACState :=
  { roles := [{ id := 1
                name := "Ops"
                slug := "ops"
                description := ""
                isActive := false
                createdAt := 0
                createdBy := none
                updatedAt := 0
                updatedBy := none
                deletedAt := none
                deletedBy := none }]
    permissions := [{ id := 2
                      name := "Create Users"
                      slug := "create-users"
                      resource := "users"
                      action := "create"
                      description := ""
                      isActive := true
                      createdAt := 0
                      createdBy := none
                      updatedAt := 0
                      updatedBy := none
                      deletedAt := none
                      deletedBy := none }]
    menus := []
    rolePermissions := [{ id := 3, roleID := 1, permissionID := 2, createdBy := none }]
    userRoles := [{ id := 4, userID := 10, roleID := 1, assignedBy := none }]
    roleMenus := [] }

/-- C1: the claim is false — `CheckUserPermission` returns true for user 10
although the only role held is inactive, because the join never filters the
role row; the spec-faithful predicate returns false on the same store. -/
theorem C1_counterexample :
    checkUserHasPermission sC1 10 "users" "create" = true ∧
    checkUserPermissionSpec sC1 10 "users" "create" = false := by
  decide

/-- C1 (amended): `CheckUserPermission(U, r, a)` returns true iff some
`user_roles` edge of U is linked through `role_permissions` to an active,
non-deleted permission whose resource and action equal `(r, a)` exactly;
the status (or even the existence) of the role row itself is not
consulted, so an inactive or soft-deleted role still contributes. -/
theorem C1_amended (s : RBACState) (u : Nat) (res act : String) :
    svcCheckUserPermission s u res act = true ↔
      ∃ ur ∈ s.userRoles, ur.userID = u ∧
        ∃ rp ∈ s.rolePermissions, rp.roleID = ur.roleID ∧
          ∃ p ∈ s.permissions, p.id = rp.permissionID ∧ p.resource = res ∧
            p.action = act ∧ p.deletedAt = none ∧ p.isActive = true :=
  checkUserHasPermission_iff s u res act

/-! ## Claim C5 -/

/-- Store with two live menus: id 1 (slug `"a"`) and id 2 (slug `"b"`). -/
def sMenus2 : RBACState :=
  { roles := []
    permissions := []
    menus := [{ id := 1
                name := "A"
                slug := "a"
                url := "/a"
                icon := ""
                parentID := none
                sortOrder := 1
                isActive := true
                createdAt := 0
                createdBy := none
                updatedAt := 0
                updatedBy := none
                deletedAt := none
                deletedBy := none },
              { id := 2
                name := "B"
                slug := "b"
                url := "/b"
                icon := ""
                parentID := none
                sortOrder := 2
                isActive := true
                createdAt := 0
                createdBy := none
                updatedAt := 0
                updatedBy := none
                deletedAt := none
                deletedBy := none }]
    rolePermissions := []
    userRoles := []
    roleMenus := [] }

/-- C6 counterexample request: sets `parent_id` to the menu's own id but
also asks for menu 2's slug. -/
def reqC6 : UpdateMenuRequest :=
  { name := none
    slug := some "b"
    url := none
    icon := none
    parentID := some 1
    sortOrder := none
    isActive := none }

/-- C6: the claim is false as stated — updating menu 1 with
`parent_id = 1` *and* a conflicting slug fails with the slug-conflict
error, not the self-parent validation error, because the slug check runs
first. -/
theorem C6_counterexample :
    svcUpdateMenu sMenus2 1 reqC6 9 100 = .error "menu slug already exists" ∧
    svcUpdateMenu sMenus2 1 reqC6 9 100 ≠ .error "menu cannot be parent of itself" := by
  refine ⟨rfl, ?_⟩
  intro h
  rw [show svcUpdateMenu sMenus2 1 reqC6 9 100 =
    (.error "menu slug already exists" : Except String RBACState) from rfl] at h
  exact absurd (Except.error.inj h) (by decide)

/-- C6 (amended): `UpdateMenu` with `req.parent_id = M.id` always fails
(so the menu is never saved); the error is the self-parent validation
message whenever the request carries no slug change (in general, whenever
no earlier check fails first). -/
theorem C6_amended :
    (∀ (s : RBACState) (id : Nat) (req : UpdateMenuRequest) (ub now : Nat)
        (s' : RBACState),
      req.parentID = some id → svcUpdateMenu s id req ub now ≠ .ok s') ∧
    (∀ (s : RBACState) (id : Nat) (req : UpdateMenuRequest) (ub now : Nat),
      req.parentID = some id → req.slug = none → (getMenuByID s id).isSome = true →
      svcUpdateMenu s id req ub now = .error "menu cannot be parent of itself") := by
  constructor
  · intro s id req ub now s' hpid
    unfold svcUpdateMenu
    cases hm : getMenuByID s id with
    | none => simp
    | some menu0 =>
      cases hsl : req.slug with
      | none => simp [hpid]
      | some sl =>
        cases hv : validateMenuSlug s sl (some id) with
        | error e => simp [hv]
        | ok u => simp [hv, hpid]
  · intro s id req ub now hpid hslug hsome
    unfold svcUpdateMenu
    cases hm : getMenuByID s id with
    | none => rw [hm] at hsome; simp at hsome
    | some menu0 => rw [hslug, hpid]; simp

/-- Witness for C6 (amended): updating menu 1 of the two-menu store with
only `parent_id = 1` fails with the self-parent error. -/
theorem C6_witness :
    svcUpdateMenu sMenus2 1
      { name := none, slug := none, url := none, icon := none,
        parentID := some 1, sortOrder := none, isActive := none } 9 100 =
      .error "menu cannot be parent of itself" :=
  C6_amended.2 sMenus2 1 _ 9 100 rfl rfl (by decide)

/-- C7 request: re-parent menu 1 under menu 2. -/
def reqC7a : UpdateMenuRequest :=
  { name := none
    slug := none
    url := none
    icon := none
    parentID := some 2
    sortOrder := none
    isActive := none }

/-- C7 request: re-parent menu 2 under menu 1. -/
def reqC7b : UpdateMenuRequest :=
  { name := none
    slug := none
    url := none
    icon := none
    parentID := some 1
    sortOrder := none
    isActive := none }

/-- Two successful `UpdateMenu` calls starting from the acyclic two-menu
store: first make 2 the parent of 1, then make 1 the parent of 2. -/
def runC7 : Except String RBACState :=
  (svcUpdateMenu sMenus2 1 reqC7a 9 100).bind
    (fun s1 => svcUpdateMenu s1 2 reqC7b 9 101)

/-- Two live menus that are each other's parent. -/
def hasTwoCycle (s : RBACState) : Bool :=
  s.menus.any (fun a => s.menus.any (fun b =>
    decide (¬ a.id = b.id ∧ a.parentID = some b.id ∧ b.parentID = some a.id ∧
      a.deletedAt = none ∧ b.deletedAt = none)))

/-- C7: the claim is false — from an acyclic store, two successful
`UpdateMenu` calls produce a state in which menus 1 and 2 are each other's
parent, because only direct self-parenting is checked. -/
theorem C7_counterexample : runC7.map hasTwoCycle = .ok true := rfl

/-- Every menu row of the store has a `parent_id` different from its own
id (no *direct* self-parenting). -/
def noSelfParent (s : RBACState) : Prop :=
  ∀ m ∈ s.menus, m.parentID ≠ some m.id

/-- C7 (amended): the menu operations prevent only *direct* self-parenting
(which successful `CreateMenu`/`UpdateMenu` calls do preserve, for create
under the usual freshness of the new id); longer parent cycles between
distinct menus are reachable and are not prevented. -/
theorem C7_amended :
    (∀ (s : RBACState) (req : CreateMenuRequest) (cb now fresh : Nat)
        (resp : CreatedResponse) (s' : RBACState),
      (∀ m ∈ s.menus, ¬ m.id = fresh) →
      svcCreateMenu s req cb now fresh = .ok (resp, s') →
      noSelfParent s → noSelfParent s') ∧
    (∀ (s : RBACState) (id : Nat) (req : UpdateMenuRequest) (ub now : Nat)
        (s' : RBACState),
      svcUpdateMenu s id req ub now = .ok s' →
      noSelfParent s → noSelfParent s') := by
  constructor
  · intro s req cb now fresh resp s' hfresh hok hinv
    unfold svcCreateMenu at hok
    cases hv : validateMenuSlug s req.slug none with
    | error e => rw [hv] at hok; exact absurd hok (by simp)
    | ok u =>
      rw [hv] at hok
      cases hp : req.parentID with
      | none =>
        simp only [hp, Except.ok.injEq, Prod.mk.injEq] at hok
        obtain ⟨-, hs'⟩ := hok
        subst hs'
        intro m hm
        rw [repoCreateMenu, List.mem_append] at hm
        rcases hm with hm | hm
        · exact hinv m hm
        · simp only [List.mem_singleton] at hm
          subst hm
          simp [hp]
      | some pid =>
        simp only [hp] at hok
        cases hpar : getMenuByID s pid with
        | none => rw [hpar] at hok; exact absurd hok (by simp)
        | some parent =>
          rw [hpar] at hok
          simp only [Except.ok.injEq, Prod.mk.injEq] at hok
          obtain ⟨-, hs'⟩ := hok
          subst hs'
          intro m hm
          rw [repoCreateMenu, List.mem_append] at hm
          rcases hm with hm | hm
          · exact hinv m hm
          · simp only [List.mem_singleton] at hm
            subst hm
            simp only [hp, ne_eq, Option.some.injEq]
            have hparpred := List.find?_some hpar
            simp only [decide_eq_true_eq] at hparpred
            have hparmem := List.mem_of_find?_eq_some hpar
            intro hcontra
            exact hfresh parent hparmem (hcontra ▸ hparpred.1)
  · intro s id req ub now s' hok hinv
    unfold svcUpdateMenu at hok
    cases hm : getMenuByID s id with
    | none => rw [hm] at hok; exact absurd hok (by simp)
    | some menu0 =>
      rw [hm] at hok
      have hm0pred := List.find?_some hm
      simp only [decide_eq_true_eq] at hm0pred
      cases hsv : (match req.slug with
        | some sl => validateMenuSlug s sl (some id)
        | none => .ok () : Except String Unit) with
      | error e => rw [hsv] at hok; exact absurd hok (by simp)
      | ok u =>
        rw [hsv] at hok
        cases hp : req.parentID with
        | none =>
          simp only [hp, Except.ok.injEq] at hok
          subst hok
          intro m hmm
          rw [repoUpdateMenu] at hmm
          simp only [List.mem_map] at hmm
          obtain ⟨r, hr, hfr⟩ := hmm
          by_cases hcase : r.id = menu0.id
          · rw [if_pos hcase] at hfr
            subst hfr
            simpa using hinv menu0 (List.mem_of_find?_eq_some hm)
          · rw [if_neg hcase] at hfr
            subst hfr
            exact hinv r hr
        | some pid =>
          simp only [hp] at hok
          by_cases hpid : pid = id
          · rw [if_pos hpid] at hok; exact absurd hok (by simp)
          · rw [if_neg hpid] at hok
            cases hpar : getMenuByID s pid with
            | none => rw [hpar] at hok; exact absurd hok (by simp)
            | some parent =>
              rw [hpar] at hok
              simp only [Except.ok.injEq] at hok
              subst hok
              intro m hmm
              rw [repoUpdateMenu] at hmm
              simp only [List.mem_map] at hmm
              obtain ⟨r, hr, hfr⟩ := hmm
              by_cases hcase : r.id = menu0.id
              · rw [if_pos hcase] at hfr
                subst hfr
                simp only [ne_eq, Option.some.injEq]
                exact fun hcontra => hpid (hcontra ▸ hm0pred.1)
              · rw [if_neg hcase] at hfr
                subst hfr
                exact hinv r hr

/-- Witness for C7 (amended): a successful self-parent-free update on the
concrete two-menu store keeps the store free of direct self-parenting. -/
theorem C7_witness :
    ((svcUpdateMenu sMenus2 1 reqC7a 9 100).toOption.getD sMenus2).menus.all
      (fun m => !(m.parentID == some m.id)) = true := by
  have h := C7_amended.2 sMenus2 1 reqC7a 9 100
    ((svcUpdateMenu sMenus2 1 reqC7a 9 100).toOption.getD sMenus2) rfl
    (by unfold noSelfParent; decide)
  rw [List.all_eq_true]
  intro m hm
  simpa using h m hm

/-! ## Claim C3 -/

/-- C3 store: role 1 currently holds one permission edge (to permission 2). -/
def sC3 : RBACState :=
  { roles := []
    permissions := []
    menus := []
    rolePermissions := [{ id := 7, roleID := 1, permissionID := 2, createdBy := none }]
    userRoles := []
    roleMenus := [] }

/-- C3: the claim is false — when the insert fails after the delete
succeeded, the operation reports an error but the junction state has
changed: role 1's existing edge is gone. -/
theorem C3_counterexample :
    (repoAssignPermissionsToRoleFallible true false sC3 1 [3] 9 50).2.isSome = true ∧
    (repoAssignPermissionsToRoleFallible true false sC3 1 [3] 9 50).1.rolePermissions = [] ∧
    sC3.rolePermissions ≠ [] :=
  ⟨rfl, rfl, by decide⟩

/-- C3 (amended): the replace is *not* atomic.  No partial application is
ever reported as success (a `none` error means the full replace was
applied), and a failed delete leaves the store unchanged; but a failed
insert after a successful delete reports an error while leaving the role's
previous junction rows deleted. -/
theorem C3_amended (dOk iOk : Bool) (s : RBACState) (roleID : Nat)
    (ids : List Nat) (ab fresh : Nat) :
    ((repoAssignPermissionsToRoleFallible dOk iOk s roleID ids ab fresh).2 = none →
      (repoAssignPermissionsToRoleFallible dOk iOk s roleID ids ab fresh).1 =
        repoAssignPermissionsToRole s roleID ids ab fresh) ∧
    (dOk = false →
      (repoAssignPermissionsToRoleFallible dOk iOk s roleID ids ab fresh).1 = s ∧
      (repoAssignPermissionsToRoleFallible dOk iOk s roleID ids ab fresh).2.isSome = true) ∧
    (dOk = true → iOk = false → ids ≠ [] →
      (repoAssignPermissionsToRoleFallible dOk iOk s roleID ids ab fresh).2.isSome = true ∧
      (repoAssignPermissionsToRoleFallible dOk iOk s roleID ids ab fresh).1 =
        { s with rolePermissions :=
            s.rolePermissions.filter (fun rp => decide (¬ rp.roleID = roleID)) }) := by
  cases dOk with
  | false =>
    refine ⟨?_, ?_, ?_⟩
    · intro h; exact absurd h (by simp [repoAssignPermissionsToRoleFallible])
    · intro _; exact ⟨rfl, rfl⟩
    · intro h; simp at h
  | true =>
    cases ids with
    | nil =>
      refine ⟨?_, ?_, ?_⟩
      · intro _
        simp [repoAssignPermissionsToRoleFallible, repoAssignPermissionsToRole]
      · intro h; simp at h
      · intro _ _ h; exact absurd rfl h
    | cons a l =>
      cases iOk with
      | false =>
        refine ⟨?_, ?_, ?_⟩
        · intro h
          exact absurd h (by simp [repoAssignPermissionsToRoleFallible])
        · intro h; simp at h
        · intro _ _ _
          constructor
          · simp [repoAssignPermissionsToRoleFallible]
          · simp [repoAssignPermissionsToRoleFallible]
      | true =>
        refine ⟨?_, ?_, ?_⟩
        · intro _
          simp [repoAssignPermissionsToRoleFallible, repoAssignPermissionsToRole]
        · intro h; simp at h
        · intro _ h; simp at h

/-- Witness for C3 (amended), exercising the insert-failure conjunct on the
concrete one-edge store. -/
theorem C3_witness :
    (repoAssignPermissionsToRoleFallible true false sC3 1 [3] 9 50).2.isSome = true ∧
    (repoAssignPermissionsToRoleFallible true false sC3 1 [3] 9 50).1 =
      { sC3 with rolePermissions :=
          sC3.rolePermissions.filter (fun rp => decide (¬ rp.roleID = 1)) } :=
  (C3_amended true false sC3 1 [3] 9 50).2.2 rfl rfl (by decide)

/-! ## Claim C10 -/

/-- C10: a replace request whose id list is not duplicate-free always fails
with the validation error, before any deletion: the `IN`-lookup resolves
each stored row at most once, so the resolved count can never reach the
(duplicated) input length.  `hnodup` is the primary-key well-formedness of
the permissions table. -/
theorem C10_assign_duplicate_ids (s : RBACState) (roleID : Nat)
    (req : AssignRolePermissionsRequest) (ab fresh : Nat)
    (hnodup : (s.permissions.map (fun p => p.id)).Nodup)
    (hrole : (getRoleByID s roleID).isSome = true)
    (hdup : ¬ req.permissionIDs.Nodup) :
    svcAssignPermissionsToRole s roleID req ab fresh =
      .error "some permissions not found" := by
  obtain ⟨role, hrole'⟩ := Option.isSome_iff_exists.mp hrole
  unfold svcAssignPermissionsToRole
  rw [hrole']
  have hsub : List.Sublist
      ((getPermissionsByIDs s req.permissionIDs).map (fun p => p.id))
      (s.permissions.map (fun p => p.id)) :=
    (List.filter_sublist s.permissions).map (fun p => p.id)
  have h1 : ((getPermissionsByIDs s req.permissionIDs).map (fun p => p.id)).Nodup :=
    hnodup.sublist hsub
  have h2 : ∀ x ∈ (getPermissionsByIDs s req.permissionIDs).map (fun p => p.id),
      x ∈ req.permissionIDs := by
    intro x hx
    rw [List.mem_map] at hx
    obtain ⟨p, hp, hpx⟩ := hx
    rw [getPermissionsByIDs, List.mem_filter, decide_eq_true_eq] at hp
    exact hpx ▸ hp.2.1
  have hsubset : ((getPermissionsByIDs s req.permissionIDs).map
      (fun p => p.id)).toFinset ⊆ req.permissionIDs.toFinset := by
    intro x hx
    rw [List.mem_toFinset] at hx ⊢
    exact h2 x hx
  have hle : (getPermissionsByIDs s req.permissionIDs).length ≤
      req.permissionIDs.dedup.length := by
    calc (getPermissionsByIDs s req.permissionIDs).length
        = ((getPermissionsByIDs s req.permissionIDs).map (fun p => p.id)).length := by
          rw [List.length_map]
      _ = ((getPermissionsByIDs s req.permissionIDs).map
            (fun p => p.id)).toFinset.card := (List.toFinset_card_of_nodup h1).symm
      _ ≤ req.permissionIDs.toFinset.card := Finset.card_le_card hsubset
      _ = req.permissionIDs.dedup.length := List.card_toFinset req.permissionIDs
  have hlt : req.permissionIDs.dedup.length < req.permissionIDs.length := by
    rcases Nat.lt_or_ge req.permissionIDs.dedup.length req.permissionIDs.length with h | h
    · exact h
    · exfalso
      have heq : req.permissionIDs.dedup.length = req.permissionIDs.length :=
        Nat.le_antisymm (List.dedup_sublist req.permissionIDs).length_le h
      have : req.permissionIDs.dedup = req.permissionIDs :=
        (List.dedup_sublist req.permissionIDs).eq_of_length heq
      exact hdup (this ▸ List.nodup_dedup req.permissionIDs)
  have hne : (getPermissionsByIDs s req.permissionIDs).length ≠
      req.permissionIDs.length :=
    Nat.ne_of_lt (Nat.lt_of_le_of_lt hle hlt)
  simp [hne]

/-- Witness for C10: on the store of C1, assigning `[2, 2]` to role 1
fails with the validation error. -/
theorem C10_witness :
    svcAssignPermissionsToRole sC1 1 { permissionIDs := [2, 2] } 9 50 =
      .error "some permissions not found" :=
  C10_assign_duplicate_ids sC1 1 { permissionIDs := [2, 2] } 9 50
    (by decide) (by decide) (by decide)

/-! ## Claim C8 -/

/-- The empty store. -/
def emptyS : RBACState :=
  { roles := []
    permissions := []
    menus := []
    rolePermissions := []
    userRoles := []
    roleMenus := [] }

/-- C8 failing input: a create request with `IsActive` absent. -/
def reqC8 : CreateRoleRequest :=
  { name := "Z", slug := "z", description := "", isActive := none }

/-- The (response, store) pair produced by `CreateRole` at the C8 failing
input. -/
def resC8 : CreatedResponse × RBACState :=
  (svcCreateRole emptyS reqC8 9 100 50).toOption.getD
    ({ id := 0, message := "" }, emptyS)

/-- C8: the claim states the intended behavior (the service computes
`IsActive: req.IsActive != nil && *req.IsActive`), but the code persists
something else: at the failing input - a create request whose `IsActive`
is absent - the successfully created row is stored with
`is_active = true`, because `db.Create` omits the zero-valued `IsActive`
field carrying the `default:true` tag and the schema default 1 applies.
The evaluation below exhibits exactly this divergence. -/
theorem C8_gorm_default_overrides_create :
    reqC8.isActive = none ∧
    (svcCreateRole emptyS reqC8 9 100 50).isOk = true ∧
    (∃ ro ∈ resC8.2.roles, ro.id = 50 ∧ ro.isActive = true) := by
  decide

/-! ## Claim C4 -/

/-- C4: after `AssignRolesToUser(U, [R1, R2])` succeeds and
`RemoveRolesFromUser(U, [R1])` runs, the edge `(U, R2)` still exists and
`CheckUserRole(U, R2.slug)` is true (R2 active, not deleted); the removal
deletes exactly the listed role ids of U and nothing else, while the assign
had replaced U's entire role set with `{R1, R2}`. -/
theorem C4_assign_remove_asymmetry
    (s : RBACState) (u r1 r2 ab fresh : Nat) (s1 : RBACState) (sl : String)
    (hne : ¬ r1 = r2)
    (hassign : svcAssignRolesToUser s u [r1, r2] ab fresh = .ok s1)
    (hr2 : ∃ ro ∈ s.roles, ro.id = r2 ∧ ro.slug = sl ∧ ro.deletedAt = none ∧
      ro.isActive = true) :
    (∃ ur ∈ (svcRemoveRolesFromUser s1 u [r1]).userRoles,
      ur.userID = u ∧ ur.roleID = r2) ∧
    checkUserHasRole (svcRemoveRolesFromUser s1 u [r1]) u sl = true ∧
    (∀ ur ∈ s1.userRoles, ¬(ur.userID = u ∧ ur.roleID = r1) →
      ur ∈ (svcRemoveRolesFromUser s1 u [r1]).userRoles) ∧
    (∀ ur ∈ (svcRemoveRolesFromUser s1 u [r1]).userRoles,
      ur ∈ s1.userRoles ∧ ¬(ur.userID = u ∧ ur.roleID = r1)) ∧
    (∀ ur ∈ s1.userRoles, ur.userID = u → (ur.roleID = r1 ∨ ur.roleID = r2)) := by
  unfold svcAssignRolesToUser at hassign
  cases hv : validateRolesExist s [r1, r2] with
  | error e => rw [hv] at hassign; exact absurd hassign (by simp)
  | ok uu =>
    rw [hv] at hassign
    simp only [Except.ok.injEq] at hassign
    subst hassign
    have hrows : ([r1, r2].enum.map (fun ir =>
        ({ id := fresh + ir.1, userID := u, roleID := ir.2,
           assignedBy := some ab } : UserRoleEntity))) =
        [{ id := fresh, userID := u, roleID := r1, assignedBy := some ab },
         { id := fresh + 1, userID := u, roleID := r2, assignedBy := some ab }] := rfl
    have he2mem : (⟨fresh + 1, u, r2, some ab⟩ : UserRoleEntity) ∈
        (repoAssignRolesToUser s u [r1, r2] ab fresh).userRoles := by
      rw [repoAssignRolesToUser]
      exact List.mem_append_right _ (by rw [hrows]; simp)
    have he2kept : (⟨fresh + 1, u, r2, some ab⟩ : UserRoleEntity) ∈
        (svcRemoveRolesFromUser (repoAssignRolesToUser s u [r1, r2] ab fresh)
          u [r1]).userRoles := by
      rw [svcRemoveRolesFromUser, repoRemoveRolesFromUser]
      rw [List.mem_filter]
      refine ⟨he2mem, ?_⟩
      rw [decide_eq_true_eq]
      rintro ⟨-, hmem⟩
      rw [List.mem_singleton] at hmem
      exact hne hmem.symm
    refine ⟨⟨_, he2kept, rfl, rfl⟩, ?_, ?_, ?_, ?_⟩
    · obtain ⟨ro, hro, hroid, hslug, hdel, hact⟩ := hr2
      exact (checkUserHasRole_iff _ u sl).mpr
        ⟨_, he2kept, rfl, ro, hro, hroid.symm, hslug, hdel, hact⟩
    · intro ur hur hnot
      rw [svcRemoveRolesFromUser, repoRemoveRolesFromUser, List.mem_filter]
      refine ⟨hur, ?_⟩
      rw [decide_eq_true_eq]
      rintro ⟨h1, h2⟩
      rw [List.mem_singleton] at h2
      exact hnot ⟨h1, h2⟩
    · intro ur hur
      rw [svcRemoveRolesFromUser, repoRemoveRolesFromUser, List.mem_filter,
        decide_eq_true_eq] at hur
      refine ⟨hur.1, ?_⟩
      rintro ⟨h1, h2⟩
      exact hur.2 ⟨h1, by rw [List.mem_singleton]; exact h2⟩
    · intro ur hur huru
      rw [repoAssignRolesToUser, List.mem_append] at hur
      rcases hur with hur | hur
      · rw [List.mem_filter, decide_eq_true_eq] at hur
        exact absurd huru hur.2
      · rw [hrows, List.mem_cons, List.mem_singleton] at hur
        rcases hur with hur | hur
        · left; rw [hur]
        · right; rw [hur]

/-- C4 witness store: two live roles (1 `"adm"`, 2 `"member"`, both
active), no junction rows. -/
def sC4 : RBACState :=
  { roles := [{ id := 1
                name := "Adm"
                slug := "adm"
                description := ""
                isActive := true
                createdAt := 0
                createdBy := none
                updatedAt := 0
                updatedBy := none
                deletedAt := none
                deletedBy := none },
              { id := 2
                name := "Member"
                slug := "member"
                description := ""
                isActive := true
                createdAt := 0
                createdBy := none
                updatedAt := 0
                updatedBy := none
                deletedAt := none
                deletedBy := none }]
    permissions := []
    menus := []
    rolePermissions := []
    userRoles := []
    roleMenus := [] }

/-- The store after assigning roles `[1, 2]` to user 10 on `sC4`. -/
def s1C4 : RBACState :=
  (svcAssignRolesToUser sC4 10 [1, 2] 9 50).toOption.getD sC4

/-- Witness for C4: after assigning `[1, 2]` and removing `[1]`,
`CheckUserRole(10, "member")` is still true. -/
theorem C4_witness :
    checkUserHasRole (svcRemoveRolesFromUser s1C4 10 [1]) 10 "member" = true :=
  (C4_assign_remove_asymmetry sC4 10 1 2 9 50 s1C4 "member"
    (by decide) rfl (by decide)).2.1

/-! ## Claim C9 -/

/-- C9 store: live role 1, live active menu 5, user 10 holding role 1, no
grants yet. -/
def sC9 : RBACState :=
  { roles := [{ id := 1
                name := "Adm"
                slug := "adm"
                description := ""
                isActive := true
                createdAt := 0
                createdBy := none
                updatedAt := 0
                updatedBy := none
                deletedAt := none
                deletedBy := none }]
    permissions := []
    menus := [{ id := 5
                name := "Dash"
                slug := "dash"
                url := "/dash"
                icon := ""
                parentID := none
                sortOrder := 1
                isActive := true
                createdAt := 0
                createdBy := none
                updatedAt := 0
                updatedBy := none
                deletedAt := none
                deletedBy := none }]
    rolePermissions := []
    userRoles := [{ id := 4, userID := 10, roleID := 1, assignedBy := none }]
    roleMenus := [] }

/-- C9: the claim is false as stated - granting menu 5 to role 1 with
`can_view = false` only does **not** make `GetUserAccessibleMenus(10)`
exclude it: the call succeeds and menu 5 appears, because the insert
persists the zero-valued `CanView` (tagged `default:true`) as
`can_view = 1`. -/
theorem C9_counterexample :
    (svcAssignMenusToRole sC9 1
      { menuPermissions := [⟨5, false, false, false, false⟩] } 9 50).toOption.map
      (fun s9 => (getUserAccessibleMenus s9 10).any (fun rm => rm.menuID == 5)) =
      some true := by
  decide

/-- C9 (amended): `GetUserAccessibleMenus(U)` returns exactly the stored
`role_menus` rows reachable through U's user-role edges whose `can_view`
is true and whose menu is active and not soft-deleted (so every returned
row has `can_view = true`); however `AssignMenusToRole` persists **every**
granted row as viewable - the `default:true` column default overrides a
false `can_view` on insert - so a grant with any `can_view` value,
including false, makes the menu appear for users holding the role. -/
theorem C9_amended :
    (∀ (s : RBACState) (u : Nat) (rm : RoleMenuEntity),
      rm ∈ getUserAccessibleMenus s u ↔
        rm ∈ s.roleMenus ∧ rm.canView = true ∧
        (∃ ur ∈ s.userRoles, ur.userID = u ∧ ur.roleID = rm.roleID) ∧
        (∃ m ∈ s.menus, m.id = rm.menuID ∧ m.deletedAt = none ∧
          m.isActive = true)) ∧
    (∀ (s : RBACState) (roleID menuID : Nat) (cv cc ce cd : Bool)
        (ab fresh u : Nat) (s' : RBACState),
      svcAssignMenusToRole s roleID
        { menuPermissions := [⟨menuID, cv, cc, ce, cd⟩] } ab fresh = .ok s' →
      (∃ ur ∈ s.userRoles, ur.userID = u ∧ ur.roleID = roleID) →
      (∃ m ∈ s.menus, m.id = menuID ∧ m.deletedAt = none ∧ m.isActive = true) →
      ∃ rm ∈ getUserAccessibleMenus s' u, rm.menuID = menuID ∧
        rm.canView = true) := by
  constructor
  · intro s u rm
    exact mem_getUserAccessibleMenus
  · intro s roleID menuID cv cc ce cd ab fresh u s' hok hur hmenu
    unfold svcAssignMenusToRole at hok
    cases hrole : getRoleByID s roleID with
    | none => rw [hrole] at hok; exact absurd hok (by simp)
    | some role =>
      simp only [hrole] at hok
      split at hok
      · exact absurd hok (by simp)
      · simp only [Except.ok.injEq] at hok
        subst hok
        have hrows : ((repoAssignMenusToRole s roleID
            ([(⟨menuID, cv, cc, ce, cd⟩ : MenuPermissionRequest)].map
              (fun mp => (⟨0, 0, mp.menuID, mp.canView, mp.canCreate,
                mp.canEdit, mp.canDelete, none, none⟩ : RoleMenuEntity)))
            ab fresh).roleMenus) =
            (s.roleMenus.filter (fun rm => decide (¬ rm.roleID = roleID))) ++
            [⟨fresh, roleID, menuID, gormDefaultTrue cv, cc, ce, cd,
              some ab, some ab⟩] := rfl
        refine ⟨(⟨fresh, roleID, menuID, gormDefaultTrue cv, cc, ce, cd,
          some ab, some ab⟩ : RoleMenuEntity), ?_, rfl,
          gormDefaultTrue_eq_true cv⟩
        rw [mem_getUserAccessibleMenus]
        refine ⟨?_, gormDefaultTrue_eq_true cv, ?_, ?_⟩
        · rw [hrows]
          exact List.mem_append_right _ (List.mem_singleton_self _)
        · exact hur
        · exact hmenu

/-- The store after granting menu 5 to role 1 with `can_view = false`. -/
def s9FalseGrant : RBACState :=
  (svcAssignMenusToRole sC9 1
    { menuPermissions := [⟨5, false, false, false, false⟩] } 9 50).toOption.getD sC9

/-- Witness for C9 (amended): after the false-view grant, user 10's
accessible menus contain a row for menu 5 that is stored viewable. -/
theorem C9_witness :
    (getUserAccessibleMenus s9FalseGrant 10).any
      (fun rm => rm.menuID == 5 && rm.canView) = true := by
  have h := C9_amended.2 sC9 1 5 false false false false 9 50 10 s9FalseGrant
    rfl (by decide) (by decide)
  obtain ⟨rm, hrm, hmid, hview⟩ := h
  rw [List.any_eq_true]
  exact ⟨rm, hrm, by simp [hmid, hview]⟩

/-! ## Claim C2 -/

/-- After a repository replace, the role's `role_permissions` edges carry
exactly the requested permission ids, in order. -/
lemma filter_roleID_repoAssign (s : RBACState) (roleID : Nat) (ids : List Nat)
    (ab f : Nat) :
    (((repoAssignPermissionsToRole s roleID ids ab f).rolePermissions.filter
      (fun rp => decide (rp.roleID = roleID))).map
      (fun rp => rp.permissionID)) = ids := by
  rw [repoAssignPermissionsToRole]
  simp only [List.filter_append]
  have hkept : ((s.rolePermissions.filter
      (fun rp => decide (¬ rp.roleID = roleID))).filter
      (fun rp => decide (rp.roleID = roleID))) = [] := by
    rw [List.filter_eq_nil_iff]
    intro a ha
    rw [List.mem_filter, decide_eq_true_eq] at ha
    simp [ha.2]
  have hrows : ((ids.enum.map (fun ip =>
      ({ id := f + ip.1, roleID := roleID, permissionID := ip.2,
         createdBy := some ab } : RolePermissionEntity))).filter
      (fun rp => decide (rp.roleID = roleID))) =
      ids.enum.map (fun ip =>
      ({ id := f + ip.1, roleID := roleID, permissionID := ip.2,
         createdBy := some ab } : RolePermissionEntity)) := by
    rw [List.filter_eq_self]
    intro a ha
    rw [List.mem_map] at ha
    obtain ⟨ip, -, hip⟩ := ha
    subst hip
    simp
  rw [hkept, hrows, List.nil_append, List.map_map]
  have : ((fun rp => rp.permissionID) ∘ (fun ip =>
      ({ id := f + ip.1, roleID := roleID, permissionID := ip.2,
         createdBy := some ab } : RolePermissionEntity))) =
      (Prod.snd : Nat × Nat → Nat) := rfl
  rw [this, List.enum_map_snd]

/-- Any edge of the replaced role in the post-replace store carries one of
the requested permission ids. -/
lemma mem_roleID_repoAssign {s : RBACState} {roleID : Nat} {ids : List Nat}
    {ab f : Nat} {rp : RolePermissionEntity}
    (hmem : rp ∈ (repoAssignPermissionsToRole s roleID ids ab f).rolePermissions)
    (hrole : rp.roleID = roleID) :
    rp.permissionID ∈ ids := by
  rw [repoAssignPermissionsToRole, List.mem_append] at hmem
  rcases hmem with h | h
  · rw [List.mem_filter, decide_eq_true_eq] at h
    exact absurd hrole h.2
  · rw [List.mem_map] at h
    obtain ⟨ip, hip, heq⟩ := h
    subst heq
    have := List.mem_map_of_mem Prod.snd hip
    rwa [List.enum_map_snd] at this

/-- C2: two successive successful full replaces leave the role with exactly
the second set of edges; for a user whose only role is this one, the
permission check is false for the resource/action pairs of the first set
(provided they differ from the final one) and true for the final pair
(that permission being active and live).  `hnodup` is the primary-key
well-formedness of the permissions table. -/
theorem C2_replace_semantics
    (s : RBACState) (roleID u p1 p2 p3 ab1 f1 ab2 f2 : Nat)
    (s1 s2 : RBACState) (res1 act1 res2 act2 res3 act3 : String)
    (h1 : svcAssignPermissionsToRole s roleID ⟨[p1, p2]⟩ ab1 f1 = .ok s1)
    (h2 : svcAssignPermissionsToRole s1 roleID ⟨[p3]⟩ ab2 f2 = .ok s2)
    (hnodup : (s.permissions.map (fun p => p.id)).Nodup)
    (hu1 : ∃ ur ∈ s.userRoles, ur.userID = u ∧ ur.roleID = roleID)
    (hu2 : ∀ ur ∈ s.userRoles, ur.userID = u → ur.roleID = roleID)
    (hp1 : ∃ p ∈ s.permissions, p.id = p1 ∧ p.resource = res1 ∧ p.action = act1)
    (hp2 : ∃ p ∈ s.permissions, p.id = p2 ∧ p.resource = res2 ∧ p.action = act2)
    (hp3 : ∃ p ∈ s.permissions, p.id = p3 ∧ p.resource = res3 ∧ p.action = act3 ∧
      p.deletedAt = none ∧ p.isActive = true)
    (hd13 : ¬(res3 = res1 ∧ act3 = act1))
    (hd23 : ¬(res3 = res2 ∧ act3 = act2)) :
    ((s2.rolePermissions.filter (fun rp => decide (rp.roleID = roleID))).map
      (fun rp => rp.permissionID) = [p3]) ∧
    checkUserHasPermission s2 u res1 act1 = false ∧
    checkUserHasPermission s2 u res2 act2 = false ∧
    checkUserHasPermission s2 u res3 act3 = true := by
  unfold svcAssignPermissionsToRole at h1 h2
  cases hr1 : getRoleByID s roleID with
  | none => rw [hr1] at h1; exact absurd h1 (by simp)
  | some role1 =>
    simp only [hr1] at h1
    split at h1
    · exact absurd h1 (by simp)
    · simp only [Except.ok.injEq] at h1
      subst h1
      cases hr2 : getRoleByID (repoAssignPermissionsToRole s roleID [p1, p2] ab1 f1)
          roleID with
      | none => rw [hr2] at h2; exact absurd h2 (by simp)
      | some role2 =>
        simp only [hr2] at h2
        split at h2
        · exact absurd h2 (by simp)
        · simp only [Except.ok.injEq] at h2
          subst h2
          obtain ⟨ur0, hur0, hur0u, hur0r⟩ := hu1
          obtain ⟨q, hq, hqid, hqres, hqact, hqdel, hqact2⟩ := hp3
          have hfalse : ∀ (res act : String), ¬(res3 = res ∧ act3 = act) →
              checkUserHasPermission
                (repoAssignPermissionsToRole
                  (repoAssignPermissionsToRole s roleID [p1, p2] ab1 f1)
                  roleID [p3] ab2 f2) u res act = false := by
            intro res act hd
            rw [Bool.eq_false_iff]
            intro htrue
            rw [checkUserHasPermission_iff] at htrue
            obtain ⟨ur, hur, huru, rp, hrp, hrprole, p, hp, hpid, hres, hact,
              hdel, hactv⟩ := htrue
            have hurS : ur ∈ s.userRoles := hur
            have hpS : p ∈ s.permissions := hp
            have hrole : ur.roleID = roleID := hu2 ur hurS huru
            have hpmem : rp.permissionID ∈ [p3] :=
              mem_roleID_repoAssign hrp (hrprole.trans hrole)
            rw [List.mem_singleton] at hpmem
            have hpq : p = q :=
              List.inj_on_of_nodup_map hnodup hpS hq (by rw [hpid, hpmem, hqid])
            exact hd ⟨hqres.symm.trans (hpq ▸ hres), hqact.symm.trans (hpq ▸ hact)⟩
          refine ⟨filter_roleID_repoAssign _ roleID [p3] ab2 f2,
            hfalse res1 act1 hd13, hfalse res2 act2 hd23, ?_⟩
          rw [checkUserHasPermission_iff]
          refine ⟨ur0, hur0, hur0u,
            (⟨f2, roleID, p3, some ab2⟩ : RolePermissionEntity), ?_, ?_,
            q, hq, hqid, hqres, hqact, hqdel, hqact2⟩
          · rw [repoAssignPermissionsToRole]
            exact List.mem_append_right _ (by simp)
          · exact hur0r.symm

/-- C2 witness store: live role 1 held by user 10 and three live active
permissions 11 `("a","x")`, 12 `("b","y")`, 13 `("c","z")`. -/
def sC2 : RBACState :=
  { roles := [{ id := 1
                name := "R"
                slug := "r"
                description := ""
                isActive := true
                createdAt := 0
                createdBy := none
                updatedAt := 0
                updatedBy := none
                deletedAt := none
                deletedBy := none }]
    permissions := [{ id := 11
                      name := "P1"
                      slug := "p1"
                      resource := "a"
                      action := "x"
                      description := ""
                      isActive := true
                      createdAt := 0
                      createdBy := none
                      updatedAt := 0
                      updatedBy := none
                      deletedAt := none
                      deletedBy := none },
                    { id := 12
                      name := "P2"
                      slug := "p2"
                      resource := "b"
                      action := "y"
                      description := ""
                      isActive := true
                      createdAt := 0
                      createdBy := none
                      updatedAt := 0
                      updatedBy := none
                      deletedAt := none
                      deletedBy := none },
                    { id := 13
                      name := "P3"
                      slug := "p3"
                      resource := "c"
                      action := "z"
                      description := ""
                      isActive := true
                      createdAt := 0
                      createdBy := none
                      updatedAt := 0
                      updatedBy := none
                      deletedAt := none
                      deletedBy := none }]
    menus := []
    rolePermissions := []
    userRoles := [{ id := 4, userID := 10, roleID := 1, assignedBy := none }]
    roleMenus := [] }

/-- Store after assigning permissions `[11, 12]` to role 1 on `sC2`. -/
def s1C2 : RBACState :=
  (svcAssignPermissionsToRole sC2 1 ⟨[11, 12]⟩ 9 50).toOption.getD sC2

/-- Store after then assigning `[13]` to role 1. -/
def s2C2 : RBACState :=
  (svcAssignPermissionsToRole s1C2 1 ⟨[13]⟩ 9 60).toOption.getD s1C2

/-- Witness for C2: after replacing `[11, 12]` by `[13]`, user 10 gains
`("c","z")` and loses `("a","x")` and `("b","y")`. -/
theorem C2_witness :
    checkUserHasPermission s2C2 10 "a" "x" = false ∧
    checkUserHasPermission s2C2 10 "b" "y" = false ∧
    checkUserHasPermission s2C2 10 "c" "z" = true := by
  have h := C2_replace_semantics sC2 1 10 11 12 13 9 50 9 60 s1C2 s2C2
    "a" "x" "b" "y" "c" "z" rfl rfl (by decide) (by decide) (by decide)
    (by decide) (by decide) (by decide) (by decide) (by decide)
  exact ⟨h.2.1, h.2.2.1, h.2.2.2⟩

end RBAC
